import Mathlib

/-!
Verification development for the MusicPlayer repository
(src/python/music_backend/player.py, src/python/music_backend/downloader.py,
src/debug_download.py).

The Python code is shallowly embedded: each function becomes a pure Lean
function over an explicit environment describing the outcomes of the external
effects it performs (file-system checks, subprocess invocations).  Printed
diagnostic text is modelled as a list of messages; subprocess invocations are
modelled as a list of call tags, so that claims about "no subprocess was
invoked" become statements about that list.
-/

/-- Substring containment over character lists, mirroring the Python
operator in applied to strings: the needle occurs contiguously in the
haystack. -/
def containsSub (needle : List Char) : List Char → Bool
  | [] => needle.isEmpty
  | c :: rest => needle.isPrefixOf (c :: rest) || containsSub needle rest

/-- Whitespace characters stripped by the Python method str.strip with no
argument (ASCII portion: space, tab, newline, carriage return, vertical tab,
form feed). -/
def isPyWs (c : Char) : Bool :=
  c = ' ' || c = '\t' || c = '\n' || c = '\r' || c = '\x0b' || c = '\x0c'

/-- Model of the Python method str.strip with no argument: remove leading and
trailing whitespace. -/
def pyStrip (s : String) : String :=
  String.mk (((s.data.dropWhile isPyWs).reverse.dropWhile isPyWs).reverse)

/-- Model of the Python method str.lower on a character list (ASCII case). -/
def pyLower (l : List Char) : List Char := l.map Char.toLower

/- ### Player model (src/python/music_backend/player.py) -/

/-- Outcome of one candidate playback method, covering the distinctions the
Python exception handlers make: the call succeeded (or exited with code 0),
the process exited with a nonzero code (CalledProcessError or a nonzero
returncode field), the executable was absent (FileNotFoundError), the call hit
its timeout (TimeoutExpired), or some other exception was raised. -/
inductive MRes
  | success
  | failExit
  | notFound
  | timeout
  | exn
  deriving DecidableEq, Repr

/-- Environment for play_audio_file: whether the file exists, the lowercased
platform name, and the outcome each candidate method would have if attempted.
The Python module holds no mutable module-level state, so the outcome map is
the only input the function depends on. -/
structure PlayerEnv where
  fileExists : Bool
  system : String
  outcome : String → MRes

/-- Windows branch of play_audio_file (lines 20-97 of player.py):
method 1 os.startfile succeeds only on success; method 2 the start command
succeeds on exit code 0 and on timeout; method 3 VLC succeeds on success or
timeout, falls through on FileNotFoundError or other failure; method 4
wmplayer is run with check=False, so it returns True on success, nonzero exit
or timeout, and falls through only when the binary is absent or another
exception is raised; method 5 PowerShell succeeds on success or timeout.
Returns the result together with the list of methods attempted, in order. -/
def winTry (env : PlayerEnv) : Bool × List String :=
  let r1 := env.outcome "os.startfile"
  if r1 = MRes.success then (true, ["os.startfile"])
  else
    let r2 := env.outcome "start"
    if r2 = MRes.success || r2 = MRes.timeout then (true, ["os.startfile", "start"])
    else
      let r3 := env.outcome "vlc"
      if r3 = MRes.success || r3 = MRes.timeout then
        (true, ["os.startfile", "start", "vlc"])
      else
        let r4 := env.outcome "wmplayer"
        if r4 = MRes.success || r4 = MRes.failExit || r4 = MRes.timeout then
          (true, ["os.startfile", "start", "vlc", "wmplayer"])
        else
          let r5 := env.outcome "powershell"
          if r5 = MRes.success || r5 = MRes.timeout then
            (true, ["os.startfile", "start", "vlc", "wmplayer", "powershell"])
          else
            (false, ["os.startfile", "start", "vlc", "wmplayer", "powershell"])

/-- Linux branch of play_audio_file (lines 103-113 of player.py): iterate
over the fixed player list; subprocess.run is called with check=True and no
timeout, and only FileNotFoundError is caught by the continue handler, so a
player that is found but fails propagates its exception to the outer handler
(lines 118-120), which returns False.  Accumulates the attempted players. -/
def linuxGo (out : String → MRes) (seen : List String) : List String → Bool × List String
  | [] => (false, seen)
  | p :: ps =>
    match out p with
    | MRes.success => (true, seen ++ [p])
    | MRes.notFound => linuxGo out (seen ++ [p]) ps
    | _ => (false, seen ++ [p])

/-- The fixed Linux candidate player list (line 105 of player.py). -/
def linuxPlayers : List String := ["mpg123", "mpv", "vlc", "mplayer", "paplay"]

/-- Embedding of play_audio_file (player.py lines 8-120): a missing file
returns False immediately; on Windows the five methods are tried in order; on
macOS afplay runs with check=True and any exception reaches the outer handler;
on Linux the candidate players are scanned; any other platform returns False.
The second component records which candidate methods were attempted. -/
def play_audio_file (env : PlayerEnv) : Bool × List String :=
  if env.fileExists = false then (false, [])
  else if env.system = "windows" then winTry env
  else if env.system = "darwin" then
    match env.outcome "afplay" with
    | MRes.success => (true, ["afplay"])
    | _ => (false, ["afplay"])
  else if env.system = "linux" then linuxGo env.outcome [] linuxPlayers
  else (false, [])

/-- Two consecutive calls of play_audio_file in the same environment.
The module player.py defines no module-level mutable variable, no cache and
no lock, so a second call is a second application of the same pure function
to the same environment. -/
def play_audio_twice (env : PlayerEnv) : (Bool × List String) × (Bool × List String) :=
  (play_audio_file env, play_audio_file env)

example :
    play_audio_file ⟨true, "linux",
      fun p => if p = "mpg123" then MRes.notFound
               else if p = "mpv" then MRes.success else MRes.notFound⟩ =
    (true, ["mpg123", "mpv"]) := by decide

example :
    play_audio_file ⟨true, "linux",
      fun p => if p = "mpg123" then MRes.failExit else MRes.success⟩ =
    (false, ["mpg123"]) := by decide

/- ### Downloader model (src/python/music_backend/downloader.py) -/

/-- Hint printed when stderr contains the exact text No results found
(downloader.py line 103). -/
def hintNoResults : String :=
  "HINT: No results found. Try a different search term or include artist name."

/-- Hint printed when the lowercased stderr contains network or connection
(downloader.py line 105). -/
def hintNetwork : String :=
  "HINT: Network connection issue. Check your internet connection."

/-- Hint printed when the lowercased stderr contains ffmpeg
(downloader.py line 107). -/
def hintFfmpeg : String :=
  "HINT: FFmpeg issue. Make sure FFmpeg is installed and in PATH."

/-- Hint printed when the lowercased stderr contains youtube
(downloader.py line 109). -/
def hintYoutube : String :=
  "HINT: YouTube access issue. This might be a temporary problem."

/-- Embedding of the stderr classification in download_song (downloader.py
lines 101-109): an empty stderr yields no hint; otherwise the raw text is
checked case-sensitively for No results found, then the lowercased text for
network or connection, then ffmpeg, then youtube; the first match wins and
anything else yields no hint. -/
def classifyStderr (stderr : String) : Option String :=
  if stderr = "" then none
  else if containsSub "No results found".data stderr.data then some hintNoResults
  else if containsSub "network".data (pyLower stderr.data)
       || containsSub "connection".data (pyLower stderr.data) then some hintNetwork
  else if containsSub "ffmpeg".data (pyLower stderr.data) then some hintFfmpeg
  else if containsSub "youtube".data (pyLower stderr.data) then some hintYoutube
  else none

/-- Outcome of a subprocess.run call in the downloader: normal completion,
TimeoutExpired, CalledProcessError carrying the captured stderr text, or any
other exception carrying its message. -/
inductive DlStep
  | ok
  | timeoutExp
  | calledErr (stderr : String)
  | exn (msg : String)
  deriving DecidableEq, Repr

/-- Whether the spotdl version check lets download_song proceed: the check is
run without check=True, so any completed run (any return code) proceeds,
while TimeoutExpired and other exceptions abort (downloader.py lines 33-48). -/
def versionPasses : DlStep → Bool
  | DlStep.timeoutExp => false
  | DlStep.exn _ => false
  | _ => true

/-- Environment of one downloader run: whether os.makedirs succeeds and the
text of its exception otherwise, the outcome of the spotdl version check, the
outcome of the spotdl download call, and the output-directory listing consulted
by search_and_download after a reported success (none when the directory does
not exist). -/
structure DlEnv where
  mkdirOk : Bool
  mkdirErr : String
  versionStep : DlStep
  downloadStep : DlStep
  listing : Option (List String)

/-- Result of a downloader run: the boolean returned to the caller, the
user-facing messages printed (logger lines and pure DEBUG echoes of
stdout/stderr are not modelled), and the tags of the subprocess invocations
made, in order. -/
structure DlRun where
  ok : Bool
  msgs : List String
  calls : List String
  deriving DecidableEq, Repr

/-- Message printed when creating the output directory fails
(downloader.py line 29). -/
def mkdirErrMsg (outdir e : String) : String :=
  "ERROR: Failed to create output directory '" ++ (outdir ++ ("': " ++ e))

/-- Message printed when the spotdl version check times out
(downloader.py line 43). -/
def verTimeoutMsg : String := "ERROR: spotdl version check timed out"

/-- Message printed when the spotdl version check raises
(downloader.py line 47). -/
def verErrMsg (e : String) : String := "ERROR: Failed to check spotdl version: " ++ e

/-- Message printed on a successful download (downloader.py line 76). -/
def successMsg (q : String) : String := "Successfully downloaded: " ++ q

/-- Message printed when the download subprocess times out
(downloader.py line 85). -/
def dlTimeoutMsg (q : String) : String :=
  "ERROR: Download timed out for '" ++ (q ++ "' after 5 minutes")

/-- Message printed when the download subprocess exits nonzero
(downloader.py line 94). -/
def dlFailMsg (q : String) : String := "ERROR: Download failed for '" ++ (q ++ "'")

/-- Message printed on any other exception during the download
(downloader.py line 115). -/
def unexpectedMsg (e : String) : String := "ERROR: Unexpected error: " ++ e

/-- Embedding of download_song (downloader.py lines 16-116): ensure the
output directory exists, probe the spotdl version (first subprocess), then run
the spotdl download command (second subprocess) with check=True and a
300-second timeout; classify CalledProcessError by its stderr text.  Every
path returns a boolean; no exception escapes. -/
def download_song (query outdir : String) (env : DlEnv) : DlRun :=
  if env.mkdirOk = false then
    ⟨false, [mkdirErrMsg outdir env.mkdirErr], []⟩
  else if versionPasses env.versionStep = false then
    match env.versionStep with
    | DlStep.timeoutExp => ⟨false, [verTimeoutMsg], ["spotdl --version"]⟩
    | DlStep.exn e => ⟨false, [verErrMsg e], ["spotdl --version"]⟩
    | _ => ⟨false, [], ["spotdl --version"]⟩
  else
    match env.downloadStep with
    | DlStep.ok =>
        ⟨true, [successMsg query], ["spotdl --version", "spotdl download"]⟩
    | DlStep.timeoutExp =>
        ⟨false, [dlTimeoutMsg query], ["spotdl --version", "spotdl download"]⟩
    | DlStep.calledErr stderr =>
        ⟨false, dlFailMsg query ::
            (match classifyStderr stderr with
             | some h => [h]
             | none => []),
          ["spotdl --version", "spotdl download"]⟩
    | DlStep.exn e =>
        ⟨false, [unexpectedMsg e], ["spotdl --version", "spotdl download"]⟩

/-- Audio extensions checked by search_and_download after a reported success
(downloader.py line 142); the check is case-sensitive there. -/
def sdAudioFile (f : String) : Bool :=
  ".mp3".data.isSuffixOf f.data || ".wav".data.isSuffixOf f.data
    || ".flac".data.isSuffixOf f.data || ".m4a".data.isSuffixOf f.data

/-- Message printed when the query is empty or whitespace-only
(downloader.py line 128). -/
def emptyNameMsg : String := "ERROR: Empty or invalid song name provided"

/-- Warning printed when a reported success left no audio file behind
(downloader.py line 147). -/
def noFilesWarning : String :=
  "WARNING: Download reported success but no audio files found"

/-- Warning printed when the output directory does not exist after a reported
success (downloader.py line 150). -/
def noDirWarning (outdir : String) : String :=
  "WARNING: Output directory " ++ (outdir ++ " does not exist after download")

/-- Embedding of search_and_download (downloader.py lines 118-155): an empty
or whitespace-only name fails before any subprocess; otherwise download_song
runs, and after a reported success the output directory is listed purely for
diagnostic warnings — the boolean result is the one download_song returned. -/
def search_and_download (song_name outdir : String) (env : DlEnv) : DlRun :=
  if song_name = "" || pyStrip song_name = "" then
    ⟨false, [emptyNameMsg], []⟩
  else if (download_song song_name outdir env).ok then
    match env.listing with
    | none =>
        ⟨(download_song song_name outdir env).ok,
         (download_song song_name outdir env).msgs ++ [noDirWarning outdir],
         (download_song song_name outdir env).calls⟩
    | some files =>
        if (files.filter sdAudioFile).isEmpty then
          ⟨(download_song song_name outdir env).ok,
           (download_song song_name outdir env).msgs ++ [noFilesWarning],
           (download_song song_name outdir env).calls⟩
        else download_song song_name outdir env
  else download_song song_name outdir env

example :
    (search_and_download "ab" "./downloads"
      ⟨true, "", DlStep.ok, DlStep.ok, some ["x.mp3"]⟩).ok = true := by decide

example :
    (search_and_download "   " "./downloads"
      ⟨true, "", DlStep.ok, DlStep.ok, some ["x.mp3"]⟩).calls = [] := by decide

example : classifyStderr "Rate limit exceeded" = none := by decide

example : classifyStderr "no results found" = none := by decide

example : classifyStderr "socket Connection refused" = some hintNetwork := by decide

/- ### Latest-file search (player.py lines 122-142) -/

/-- Audio extensions recognised by find_latest_audio_file
(player.py line 129). -/
def audio_extensions : List String := [".mp3", ".wav", ".flac", ".m4a", ".ogg"]

/-- File-name test of find_latest_audio_file (player.py line 133): the
lowercased name ends with one of the audio extensions, so the match is
case-insensitive. -/
def isAudioFile (name : String) : Bool :=
  audio_extensions.any (fun ext => ext.data.isSuffixOf (pyLower name.data))

/-- Model of os.path.join as used on line 134 of player.py (posix form,
directory not ending in a separator). -/
def joinPath (d f : String) : String := d ++ ("/" ++ f)

/-- Model of the Python builtin max with a key function as used on line 141
of player.py: fold over the list keeping the current maximum, replacing it
only when a strictly greater key appears, so the first maximal element wins. -/
def maxBySnd (x : String × Nat) (xs : List (String × Nat)) : String × Nat :=
  xs.foldl (fun b a => if b.2 < a.2 then a else b) x

/-- Embedding of find_latest_audio_file (player.py lines 122-142): the
directory listing is given as an optional list of file names with their
modification times (none when the directory does not exist); names matching
an audio extension are collected as joined paths with their times, and the
entry with the greatest modification time is returned, or none when nothing
matched. -/
def find_latest_audio_file (directory : String)
    (listing : Option (List (String × Nat))) : Option String :=
  match listing with
  | none => none
  | some entries =>
    match (entries.filter (fun e => isAudioFile e.1)).map
        (fun e => (joinPath directory e.1, e.2)) with
    | [] => none
    | x :: xs => some (maxBySnd x xs).1

example :
    find_latest_audio_file "./downloads"
      (some [("a.txt", 9), ("b.MP3", 3), ("c.ogg", 7), ("d.wav", 7)]) =
    some "./downloads/c.ogg" := by decide

example : find_latest_audio_file "./downloads" (some [("a.txt", 9)]) = none := by
  decide

/- ### Subprocess call sites and their timeouts -/

/-- One subprocess invocation site in the repository: the source location, the
invoked tool, and the explicit timeout argument in seconds when one is passed
to subprocess.run.  Every site uses subprocess.run, which blocks until the
child exits or the timeout expires. -/
structure CallSite where
  location : String
  tool : String
  timeoutSec : Option Nat
  deriving DecidableEq, Repr

/-- Every subprocess invocation site in the repository, transcribed from the
three source files: the four Windows fallback players and the macOS and Linux
players in player.py, the version probe and the download call in
download_song, the three probes in test_environment, and the command loop and
connectivity check in debug_download.py. -/
def callSites : List CallSite :=
  [⟨"player.py:36", "start", some 5⟩,
   ⟨"player.py:54", "vlc", some 3⟩,
   ⟨"player.py:69", "wmplayer", some 3⟩,
   ⟨"player.py:84", "powershell", some 5⟩,
   ⟨"player.py:100", "afplay", none⟩,
   ⟨"player.py:108", "linux players loop", none⟩,
   ⟨"downloader.py:34", "spotdl --version", some 10⟩,
   ⟨"downloader.py:63", "spotdl download", some 300⟩,
   ⟨"downloader.py:173", "spotdl --version", some 10⟩,
   ⟨"downloader.py:184", "yt_dlp --version", some 10⟩,
   ⟨"downloader.py:195", "ffmpeg -version", some 10⟩,
   ⟨"debug_download.py:57", "basic commands loop", some 15⟩,
   ⟨"debug_download.py:86", "curl", some 15⟩]

/- ### Helper lemmas -/

/-- Two string concatenations differ when their literal heads differ at an
index inside both heads. -/
lemma strNeOfAppend (p s q t : String) (i : Nat)
    (h1 : i < p.data.length) (h2 : i < q.data.length)
    (hne : p.data[i]? ≠ q.data[i]?) : p ++ s ≠ q ++ t := by
  intro he
  apply hne
  have hd : p.data ++ s.data = q.data ++ t.data := by
    rw [← String.data_append, ← String.data_append, he]
  calc p.data[i]? = (p.data ++ s.data)[i]? := (List.getElem?_append_left h1).symm
    _ = (q.data ++ t.data)[i]? := by rw [hd]
    _ = q.data[i]? := List.getElem?_append_left h2

/-- A string concatenation differs from a constant string when the literal
head differs from the constant at an index inside the head. -/
lemma strNeOfConst (p s t : String) (i : Nat)
    (h1 : i < p.data.length) (hne : p.data[i]? ≠ t.data[i]?) : p ++ s ≠ t := by
  intro he
  apply hne
  calc p.data[i]? = (p.data ++ s.data)[i]? := (List.getElem?_append_left h1).symm
    _ = (p ++ s).data[i]? := by rw [String.data_append]
    _ = t.data[i]? := by rw [he]

/-- The model of str.strip returns the empty string exactly when every
character of the input is whitespace. -/
lemma pyStrip_eq_empty_iff (s : String) :
    pyStrip s = "" ↔ ∀ c ∈ s.data, isPyWs c = true := by
  unfold pyStrip
  constructor
  · intro h c hc
    have h2 : ((s.data.dropWhile isPyWs).reverse.dropWhile isPyWs).reverse = [] :=
      congrArg String.data h
    rw [List.reverse_eq_nil_iff, List.dropWhile_eq_nil_iff] at h2
    have hall : ∀ x ∈ s.data.dropWhile isPyWs, isPyWs x = true := by
      intro x hx
      exact h2 x (List.mem_reverse.mpr hx)
    rw [← List.takeWhile_append_dropWhile isPyWs s.data] at hc
    rcases List.mem_append.mp hc with h3 | h3
    · exact List.mem_takeWhile_imp h3
    · exact hall _ h3
  · intro h
    have h1 : s.data.dropWhile isPyWs = [] := List.dropWhile_eq_nil_iff.mpr h
    rw [h1]
    rfl

/-- The Python max fold returns an element of the list and its second
component dominates every second component in the list. -/
lemma maxBySnd_spec (x : String × Nat) (xs : List (String × Nat)) :
    maxBySnd x xs ∈ x :: xs ∧ ∀ a ∈ x :: xs, a.2 ≤ (maxBySnd x xs).2 := by
  induction xs generalizing x with
  | nil =>
    refine ⟨List.mem_singleton.mpr rfl, ?_⟩
    intro a ha
    rw [List.mem_singleton.mp ha]
    exact le_refl _
  | cons y ys ih =>
    have step : maxBySnd x (y :: ys) = maxBySnd (if x.2 < y.2 then y else x) ys := rfl
    rcases ih (if x.2 < y.2 then y else x) with ⟨hmem, hmax⟩
    constructor
    · rw [step]
      rcases List.mem_cons.mp hmem with h | h
      · rw [h]
        by_cases hxy : x.2 < y.2
        · simp [hxy]
        · simp [hxy]
      · exact List.mem_cons_of_mem _ (List.mem_cons_of_mem _ h)
    · intro a ha
      rw [step]
      rcases List.mem_cons.mp ha with h | ha2
      · have hx : x.2 ≤ (if x.2 < y.2 then y else x).2 := by
          by_cases hxy : x.2 < y.2
          · rw [if_pos hxy]; exact le_of_lt hxy
          · rw [if_neg hxy]
        rw [h]
        exact le_trans hx (hmax _ (List.mem_cons_self _ _))
      rcases List.mem_cons.mp ha2 with h | ha3
      · have hy : y.2 ≤ (if x.2 < y.2 then y else x).2 := by
          by_cases hxy : x.2 < y.2
          · rw [if_pos hxy]
          · rw [if_neg hxy]; exact le_of_not_lt hxy
        rw [h]
        exact le_trans hy (hmax _ (List.mem_cons_self _ _))
      · exact hmax _ (List.mem_cons_of_mem _ ha3)

/-- Every hint produced by the stderr classification is one of the four
constant hint strings. -/
lemma classifyStderr_cases (s h : String) (hc : classifyStderr s = some h) :
    h = hintNoResults ∨ h = hintNetwork ∨ h = hintFfmpeg ∨ h = hintYoutube := by
  unfold classifyStderr at hc
  split_ifs at hc <;> simp_all

/-- The boolean returned by search_and_download for a nonblank query is the
one download_song returned; the post-download directory check only appends
warnings. -/
lemma sd_ok_eq (q outdir : String) (env : DlEnv)
    (h1 : q ≠ "") (h2 : pyStrip q ≠ "") :
    (search_and_download q outdir env).ok = (download_song q outdir env).ok := by
  unfold search_and_download
  have hcond : ¬ ((decide (q = "") || decide (pyStrip q = "")) = true) := by
    simp [h1, h2]
  rw [if_neg hcond]
  split
  · split
    · rfl
    · split <;> rfl
  · rfl


/-- Changing the directory listing in the environment does not change the
result of download_song, which never consults it. -/
lemma download_song_listing_invariant (q outdir : String) (env : DlEnv)
    (l : Option (List String)) :
    download_song q outdir { env with listing := l } = download_song q outdir env := rfl

/-- The timeout message differs from the directory-creation failure
message. -/
lemma dlTimeout_ne_mkdir (q outdir e : String) :
    dlTimeoutMsg q ≠ mkdirErrMsg outdir e := by
  unfold dlTimeoutMsg mkdirErrMsg
  exact strNeOfAppend _ _ _ _ 7 (by decide) (by decide) (by decide)

/-- The timeout message differs from the version-check timeout message. -/
lemma dlTimeout_ne_verTimeout (q : String) : dlTimeoutMsg q ≠ verTimeoutMsg := by
  unfold dlTimeoutMsg verTimeoutMsg
  exact strNeOfConst _ _ _ 7 (by decide) (by decide)

/-- The timeout message differs from the version-check failure message. -/
lemma dlTimeout_ne_verErr (q e : String) : dlTimeoutMsg q ≠ verErrMsg e := by
  unfold dlTimeoutMsg verErrMsg
  exact strNeOfAppend _ _ _ _ 7 (by decide) (by decide) (by decide)

/-- The timeout message differs from the success message. -/
lemma dlTimeout_ne_success (q q' : String) : dlTimeoutMsg q ≠ successMsg q' := by
  unfold dlTimeoutMsg successMsg
  exact strNeOfAppend _ _ _ _ 0 (by decide) (by decide) (by decide)

/-- The timeout message differs from the nonzero-exit failure message. -/
lemma dlTimeout_ne_dlFail (q q' : String) : dlTimeoutMsg q ≠ dlFailMsg q' := by
  unfold dlTimeoutMsg dlFailMsg
  exact strNeOfAppend _ _ _ _ 16 (by decide) (by decide) (by decide)

/-- The timeout message differs from the unexpected-exception message. -/
lemma dlTimeout_ne_unexpected (q e : String) : dlTimeoutMsg q ≠ unexpectedMsg e := by
  unfold dlTimeoutMsg unexpectedMsg
  exact strNeOfAppend _ _ _ _ 7 (by decide) (by decide) (by decide)

/-- The timeout message differs from the no-results hint. -/
lemma dlTimeout_ne_hint1 (q : String) : dlTimeoutMsg q ≠ hintNoResults := by
  unfold dlTimeoutMsg hintNoResults
  exact strNeOfConst _ _ _ 0 (by decide) (by decide)

/-- The timeout message differs from the network hint. -/
lemma dlTimeout_ne_hint2 (q : String) : dlTimeoutMsg q ≠ hintNetwork := by
  unfold dlTimeoutMsg hintNetwork
  exact strNeOfConst _ _ _ 0 (by decide) (by decide)

/-- The timeout message differs from the ffmpeg hint. -/
lemma dlTimeout_ne_hint3 (q : String) : dlTimeoutMsg q ≠ hintFfmpeg := by
  unfold dlTimeoutMsg hintFfmpeg
  exact strNeOfConst _ _ _ 0 (by decide) (by decide)

/-- The timeout message differs from the youtube hint. -/
lemma dlTimeout_ne_hint4 (q : String) : dlTimeoutMsg q ≠ hintYoutube := by
  unfold dlTimeoutMsg hintYoutube
  exact strNeOfConst _ _ _ 0 (by decide) (by decide)

/-- The timeout message never occurs among the hints appended to a
nonzero-exit failure. -/
lemma dlTimeout_notin_hints (q s : String) :
    dlTimeoutMsg q ∉ (match classifyStderr s with
                      | some h => [h]
                      | none => ([] : List String)) := by
  cases hcl : classifyStderr s with
  | none => simp
  | some h =>
    simp only [List.mem_singleton]
    intro he
    rcases classifyStderr_cases s h hcl with h4 | h4 | h4 | h4
    · exact dlTimeout_ne_hint1 q (h4 ▸ he)
    · exact dlTimeout_ne_hint2 q (h4 ▸ he)
    · exact dlTimeout_ne_hint3 q (h4 ▸ he)
    · exact dlTimeout_ne_hint4 q (h4 ▸ he)

/- ### Claim theorems -/

/-- C7: for every query, when the download subprocess times out, download_song
returns False, and the timeout message is printed exactly in that case — it
appears in the printed messages if and only if the run reached the download
step and that step timed out, so the message is specific to the timeout
failure class and distinct from the messages of every other class. -/
theorem C7_timeout_distinct_message (q outdir : String) (env : DlEnv) :
    (env.mkdirOk = true → versionPasses env.versionStep = true →
      env.downloadStep = DlStep.timeoutExp →
      (download_song q outdir env).ok = false) ∧
    (dlTimeoutMsg q ∈ (download_song q outdir env).msgs ↔
      (env.mkdirOk = true ∧ versionPasses env.versionStep = true ∧
        env.downloadStep = DlStep.timeoutExp)) := by
  constructor
  · intro h1 h2 h3
    simp [download_song, h1, h2, h3]
  · cases hm : env.mkdirOk
    · simp [download_song, hm, dlTimeout_ne_mkdir]
    · cases hv : env.versionStep
      case timeoutExp =>
        simp [download_song, hm, hv, versionPasses, dlTimeout_ne_verTimeout]
      case exn e =>
        simp [download_song, hm, hv, versionPasses, dlTimeout_ne_verErr]
      case ok =>
        cases hd : env.downloadStep
        case ok =>
          simp [download_song, hm, hv, hd, versionPasses, dlTimeout_ne_success]
        case timeoutExp =>
          simp [download_song, hm, hv, hd, versionPasses]
        case calledErr s =>
          simp [download_song, hm, hv, hd, versionPasses, dlTimeout_ne_dlFail,
            dlTimeout_notin_hints q s]
        case exn e =>
          simp [download_song, hm, hv, hd, versionPasses, dlTimeout_ne_unexpected]
      case calledErr s' =>
        cases hd : env.downloadStep
        case ok =>
          simp [download_song, hm, hv, hd, versionPasses, dlTimeout_ne_success]
        case timeoutExp =>
          simp [download_song, hm, hv, hd, versionPasses]
        case calledErr s =>
          simp [download_song, hm, hv, hd, versionPasses, dlTimeout_ne_dlFail,
            dlTimeout_notin_hints q s]
        case exn e =>
          simp [download_song, hm, hv, hd, versionPasses, dlTimeout_ne_unexpected]

/-- Witness for C7 at a concrete input: a run whose download step times out
returns False and prints the timeout message. -/
theorem C7_timeout_distinct_message_witness :
    (download_song "abba" "./downloads"
      ⟨true, "", DlStep.ok, DlStep.timeoutExp, none⟩).ok = false ∧
    dlTimeoutMsg "abba" ∈ (download_song "abba" "./downloads"
      ⟨true, "", DlStep.ok, DlStep.timeoutExp, none⟩).msgs :=
  ⟨(C7_timeout_distinct_message "abba" "./downloads"
      ⟨true, "", DlStep.ok, DlStep.timeoutExp, none⟩).1 rfl rfl rfl,
   (C7_timeout_distinct_message "abba" "./downloads"
      ⟨true, "", DlStep.ok, DlStep.timeoutExp, none⟩).2.mpr ⟨rfl, rfl, rfl⟩⟩

/-- C8: for every query that is empty or consists only of whitespace,
search_and_download returns False and makes no subprocess invocation at
all. -/
theorem C8_blank_query_rejected (q outdir : String) (env : DlEnv)
    (h : ∀ c ∈ q.data, isPyWs c = true) :
    (search_and_download q outdir env).ok = false ∧
    (search_and_download q outdir env).calls = [] := by
  have hs : pyStrip q = "" := (pyStrip_eq_empty_iff q).mpr h
  unfold search_and_download
  rw [if_pos (by simp [hs])]
  exact ⟨rfl, rfl⟩

/-- Witness for C8 at a concrete input: a whitespace-only query fails with no
subprocess call. -/
theorem C8_blank_query_rejected_witness :
    (search_and_download "  \t" "./downloads"
      ⟨true, "", DlStep.ok, DlStep.ok, none⟩).ok = false ∧
    (search_and_download "  \t" "./downloads"
      ⟨true, "", DlStep.ok, DlStep.ok, none⟩).calls = [] :=
  C8_blank_query_rejected "  \t" "./downloads"
    ⟨true, "", DlStep.ok, DlStep.ok, none⟩ (by decide)

/-- C10: for every environment in which the file does not exist,
play_audio_file returns False with an empty list of attempted playback
methods — no subprocess invocation and no OS open call. -/
theorem C10_missing_file_no_attempt (env : PlayerEnv)
    (h : env.fileExists = false) :
    play_audio_file env = (false, []) := by
  simp [play_audio_file, h]

/-- Witness for C10 at a concrete input: a missing file yields False and no
attempted method even though every method would succeed. -/
theorem C10_missing_file_no_attempt_witness :
    play_audio_file ⟨false, "linux", fun _ => MRes.success⟩ = (false, []) :=
  C10_missing_file_no_attempt ⟨false, "linux", fun _ => MRes.success⟩ rfl

/-- C1 counterexample: player.py holds no cache and no lock, so a second call
to play_audio_file is a second application of the same pure function.  In an
environment where the first Linux candidate is absent and the second works,
the first call succeeds through mpv, yet the second call probes mpg123 again:
its attempt list is not the single cached method, refuting the claim that a
populated cache is reused without re-probing other candidates. -/
theorem C1_counterexample :
    (play_audio_twice ⟨true, "linux",
        fun p => if p = "mpg123" then MRes.notFound
                 else if p = "mpv" then MRes.success else MRes.notFound⟩).1 =
      (true, ["mpg123", "mpv"]) ∧
    (play_audio_twice ⟨true, "linux",
        fun p => if p = "mpg123" then MRes.notFound
                 else if p = "mpv" then MRes.success else MRes.notFound⟩).2.2 ≠
      ["mpv"] ∧
    "mpg123" ∈ (play_audio_twice ⟨true, "linux",
        fun p => if p = "mpg123" then MRes.notFound
                 else if p = "mpv" then MRes.success else MRes.notFound⟩).2.2 := by
  decide

/-- C1 (amended): the playback path maintains no cache of a working method
and no lock; play_audio_file is a pure function of its environment, so a
second call repeats exactly the probe sequence of the first — after a call
that succeeded with the second Linux candidate, the next call probes the
first candidate again instead of reusing the cached method. -/
theorem C1_no_cache_reprobe (f : String → MRes)
    (h1 : f "mpg123" = MRes.notFound) (h2 : f "mpv" = MRes.success) :
    play_audio_twice ⟨true, "linux", f⟩ =
      ((true, ["mpg123", "mpv"]), (true, ["mpg123", "mpv"])) := by
  unfold play_audio_twice play_audio_file
  simp [linuxPlayers, linuxGo, h1, h2]

/-- Witness for C1 (amended) at a concrete environment. -/
theorem C1_no_cache_reprobe_witness :
    play_audio_twice ⟨true, "linux",
        fun p => if p = "mpg123" then MRes.notFound
                 else if p = "mpv" then MRes.success else MRes.notFound⟩ =
      ((true, ["mpg123", "mpv"]), (true, ["mpg123", "mpv"])) :=
  C1_no_cache_reprobe _ (by decide) (by decide)

/-- C6 counterexample: on Linux, when the first candidate player mpg123 is
installed but exits with a failure, play_audio_file returns False after
attempting only mpg123, even though the next candidate mpv would succeed —
the failure of a candidate does not lead to the next candidate being
attempted. -/
theorem C6_counterexample :
    play_audio_file ⟨true, "linux",
        fun p => if p = "mpg123" then MRes.failExit else MRes.success⟩ =
      (false, ["mpg123"]) ∧
    (fun p => if p = "mpg123" then MRes.failExit else MRes.success) "mpv" =
      MRes.success := by
  decide

/-- C6 (amended): on Windows the candidate methods are tried in the fixed
preference order with fall-through on any failure, stopping at the first
success; on Linux the loop falls through to the next player only when the
player binary is absent (FileNotFoundError) — a player that is found but
fails aborts the whole attempt with False, without trying the remaining
candidates. -/
theorem C6_fallback_order (f g h : String → MRes)
    (hw1 : f "os.startfile" = MRes.exn) (hw2 : f "start" = MRes.success)
    (hl1 : g "mpg123" = MRes.failExit)
    (hn1 : h "mpg123" = MRes.notFound) (hn2 : h "mpv" = MRes.success) :
    play_audio_file ⟨true, "windows", f⟩ = (true, ["os.startfile", "start"]) ∧
    play_audio_file ⟨true, "linux", g⟩ = (false, ["mpg123"]) ∧
    play_audio_file ⟨true, "linux", h⟩ = (true, ["mpg123", "mpv"]) := by
  refine ⟨?_, ?_, ?_⟩
  · simp [play_audio_file, winTry, hw1, hw2]
  · simp [play_audio_file, linuxPlayers, linuxGo, hl1]
  · simp [play_audio_file, linuxPlayers, linuxGo, hn1, hn2]

/-- Witness for C6 (amended) at concrete environments. -/
theorem C6_fallback_order_witness :
    play_audio_file ⟨true, "windows",
        fun p => if p = "os.startfile" then MRes.exn else MRes.success⟩ =
      (true, ["os.startfile", "start"]) ∧
    play_audio_file ⟨true, "linux",
        fun p => if p = "mpg123" then MRes.failExit else MRes.success⟩ =
      (false, ["mpg123"]) ∧
    play_audio_file ⟨true, "linux",
        fun p => if p = "mpg123" then MRes.notFound
                 else if p = "mpv" then MRes.success else MRes.notFound⟩ =
      (true, ["mpg123", "mpv"]) :=
  C6_fallback_order _ _ _ (by decide) (by decide) (by decide) (by decide)
    (by decide)

/-- C2 counterexample: the two-character query ab is neither empty nor
whitespace-only, so it passes the only validation search_and_download
performs; in an environment where every step succeeds the call returns True,
refuting the claim that every query shorter than 3 characters fails. -/
theorem C2_counterexample :
    "ab".length < 3 ∧
    (search_and_download "ab" "./downloads"
      ⟨true, "", DlStep.ok, DlStep.ok, some ["x.mp3"]⟩).ok = true := by
  decide

/-- C2 (amended): search_and_download rejects only queries that are empty or
whitespace-only; any other query — including queries of one or two
characters — proceeds to the download path, whose boolean result it
returns. -/
theorem C2_no_length_check (q outdir : String) (env : DlEnv)
    (h1 : q ≠ "") (h2 : pyStrip q ≠ "") :
    (search_and_download q outdir env).ok = (download_song q outdir env).ok :=
  sd_ok_eq q outdir env h1 h2

/-- Witness for C2 (amended) at the two-character query. -/
theorem C2_no_length_check_witness :
    (search_and_download "ab" "./downloads"
      ⟨true, "", DlStep.ok, DlStep.ok, some ["x.mp3"]⟩).ok =
    (download_song "ab" "./downloads"
      ⟨true, "", DlStep.ok, DlStep.ok, some ["x.mp3"]⟩).ok :=
  C2_no_length_check "ab" "./downloads"
    ⟨true, "", DlStep.ok, DlStep.ok, some ["x.mp3"]⟩ (by decide) (by decide)

/-- C3 counterexample: the output directory already holds the file hello.mp3,
which matches the query hello, yet search_and_download still invokes the
download tool and, because that invocation fails, reports False — refuting
the claim that an existing matching file short-circuits to success without
invoking the download tool. -/
theorem C3_counterexample :
    sdAudioFile "hello.mp3" = true ∧
    (search_and_download "hello" "./downloads"
      ⟨true, "", DlStep.ok, DlStep.calledErr "No results found",
        some ["hello.mp3"]⟩).ok = false ∧
    "spotdl download" ∈ (search_and_download "hello" "./downloads"
      ⟨true, "", DlStep.ok, DlStep.calledErr "No results found",
        some ["hello.mp3"]⟩).calls := by
  decide

/-- C3 (amended): the downloader never consults the output directory before
downloading: for every nonblank query whose preliminary steps succeed, the
download tool is invoked, and the boolean result is unchanged by the
directory listing — the listing is only read after a reported success, to
print diagnostics. -/
theorem C3_always_downloads (q outdir : String) (env : DlEnv)
    (h1 : q ≠ "") (h2 : pyStrip q ≠ "") (h3 : env.mkdirOk = true)
    (h4 : versionPasses env.versionStep = true) :
    "spotdl download" ∈ (search_and_download q outdir env).calls ∧
    ∀ l₁ l₂ : Option (List String),
      (search_and_download q outdir { env with listing := l₁ }).ok =
      (search_and_download q outdir { env with listing := l₂ }).ok := by
  constructor
  · unfold search_and_download
    rw [if_neg (by simp [h1, h2])]
    have hmem : "spotdl download" ∈ (download_song q outdir env).calls := by
      unfold download_song
      rw [if_neg (by simp [h3]), if_neg (by simp [h4])]
      cases env.downloadStep <;> simp
    split
    · split
      · exact hmem
      · split
        · exact hmem
        · exact hmem
    · exact hmem
  · intro l₁ l₂
    rw [sd_ok_eq q outdir _ h1 h2, sd_ok_eq q outdir _ h1 h2]
    rfl

/-- Witness for C3 (amended) at a concrete input: the download tool is
invoked although a matching file already exists, and the result is the same
with or without that file in the listing. -/
theorem C3_always_downloads_witness :
    "spotdl download" ∈ (search_and_download "hello" "./downloads"
      ⟨true, "", DlStep.ok, DlStep.calledErr "No results found",
        some ["hello.mp3"]⟩).calls ∧
    ∀ l₁ l₂ : Option (List String),
      (search_and_download "hello" "./downloads"
        ⟨true, "", DlStep.ok, DlStep.calledErr "No results found", l₁⟩).ok =
      (search_and_download "hello" "./downloads"
        ⟨true, "", DlStep.ok, DlStep.calledErr "No results found", l₂⟩).ok :=
  C3_always_downloads "hello" "./downloads"
    ⟨true, "", DlStep.ok, DlStep.calledErr "No results found",
      some ["hello.mp3"]⟩ (by decide) (by decide) rfl rfl

/-- C4 counterexample: a stderr text containing rate limit produces no hint at
all, and the lowercase text no results found also produces no hint, because
the code matches No results found case-sensitively and has no rate-limit
branch — refuting the claimed classification, which promises a retry-later
suggestion for rate limit and a better-query suggestion for no results
found. -/
theorem C4_counterexample :
    classifyStderr "spotdl: rate limit exceeded, slow down" = none ∧
    classifyStderr "error: no results found" = none := by
  decide

/-- C4 (amended): failures are classified by substring-matching the captured
stderr, in order: the exact, case-sensitive text No results found yields the
better-query hint; network or connection, matched case-insensitively, yields
the connectivity hint; ffmpeg yields the install hint; youtube yields the
retry-later hint; there is no rate-limit branch, and empty or unmatched
stderr yields no hint. -/
theorem C4_classification :
    classifyStderr "" = none ∧
    classifyStderr "spotdl: No results found for query" = some hintNoResults ∧
    classifyStderr "Network is unreachable" = some hintNetwork ∧
    classifyStderr "Connection reset by peer" = some hintNetwork ∧
    classifyStderr "FFmpeg not found on PATH" = some hintFfmpeg ∧
    classifyStderr "YouTube throttled this client" = some hintYoutube ∧
    classifyStderr "rate limit reached" = none ∧
    classifyStderr "something else entirely" = none := by
  decide

/-- C5 counterexample: the macOS afplay invocation is a subprocess call with
no timeout argument at all, refuting the claim that every subprocess
invocation carries an explicit timeout between 2 and 300 seconds. -/
theorem C5_counterexample :
    (⟨"player.py:100", "afplay", none⟩ : CallSite) ∈ callSites ∧
    (⟨"player.py:100", "afplay", none⟩ : CallSite).timeoutSec = none := by
  decide

/-- C5 (amended): every subprocess invocation in the repository is a
synchronous blocking subprocess.run call; every invocation except the macOS
afplay call and the Linux player loop passes an explicit timeout, and every
explicit timeout lies between 2 and 300 seconds. -/
theorem C5_timeout_bounds :
    callSites.all (fun c =>
      match c.timeoutSec with
      | some t => decide (2 ≤ t) && decide (t ≤ 300)
      | none => decide (c.tool = "afplay")
          || decide (c.tool = "linux players loop")) = true := by
  decide

/-- C9: find_latest_audio_file returns none exactly when the directory does
not exist or no entry has an audio extension (matched case-insensitively via
the lowercased name); and whenever it returns a path, that path is the
directory joined with the name of an audio entry whose modification time is
maximal among all audio entries. -/
theorem C9_find_latest_correct (d : String)
    (listing : Option (List (String × Nat))) :
    (find_latest_audio_file d listing = none ↔
      (listing = none ∨
        ∃ l, listing = some l ∧ ∀ e ∈ l, isAudioFile e.1 = false)) ∧
    (∀ p, find_latest_audio_file d listing = some p →
      ∃ name mt, (name, mt) ∈ listing.getD [] ∧ isAudioFile name = true ∧
        p = joinPath d name ∧
        ∀ e ∈ listing.getD [], isAudioFile e.1 = true → e.2 ≤ mt) := by
  cases listing with
  | none =>
    refine ⟨by simp [find_latest_audio_file], ?_⟩
    intro p hp
    simp [find_latest_audio_file] at hp
  | some l =>
    have hexp : find_latest_audio_file d (some l) =
        (match (List.filter (fun e => isAudioFile e.1) l).map
            (fun e => (joinPath d e.1, e.2)) with
         | [] => none
         | x :: xs => some (maxBySnd x xs).1) := rfl
    constructor
    · rw [hexp]
      constructor
      · intro hn
        right
        refine ⟨l, rfl, ?_⟩
        intro e he
        by_contra hne
        have hmem : e ∈ List.filter (fun e => isAudioFile e.1) l := by
          rw [List.mem_filter]
          exact ⟨he, by simpa using hne⟩
        rcases hx : List.filter (fun e => isAudioFile e.1) l with _ | ⟨x, xs⟩
        · rw [hx] at hmem
          exact absurd hmem (List.not_mem_nil e)
        · rw [hx] at hn
          simp at hn
      · intro hl
        rcases hl with hl | ⟨l', hl', hall⟩
        · exact absurd hl (by simp)
        · have hl2 : l' = l := by injection hl'.symm
          rw [hl2] at hall
          have hfil : List.filter (fun e => isAudioFile e.1) l = [] := by
            rw [List.filter_eq_nil_iff]
            intro e he
            simp [hall e he]
          rw [hfil]
          rfl
    · intro p hp
      rw [hexp] at hp
      rcases hx : List.filter (fun e => isAudioFile e.1) l with _ | ⟨x, xs⟩
      · rw [hx] at hp
        simp at hp
      · rw [hx] at hp
        simp only [List.map_cons, Option.some.injEq] at hp
        rcases maxBySnd_spec (joinPath d x.1, x.2)
            (xs.map (fun e => (joinPath d e.1, e.2))) with ⟨hmem, hmax⟩
        have hmem2 : maxBySnd (joinPath d x.1, x.2)
            (xs.map (fun e => (joinPath d e.1, e.2))) ∈
            (List.filter (fun e => isAudioFile e.1) l).map
              (fun e => (joinPath d e.1, e.2)) := by
          rw [hx, List.map_cons]
          exact hmem
        rcases List.mem_map.mp hmem2 with ⟨e, hef, hee⟩
        have hefl := List.mem_filter.mp hef
        refine ⟨e.1, e.2, hefl.1, by simpa using hefl.2, ?_, ?_⟩
        · rw [← hp, ← hee]
        · intro e' he' ha'
          have he'f : e' ∈ List.filter (fun e => isAudioFile e.1) l := by
            rw [List.mem_filter]
            exact ⟨he', by simpa using ha'⟩
          have he'm : (joinPath d e'.1, e'.2) ∈
              (List.filter (fun e => isAudioFile e.1) l).map
                (fun e => (joinPath d e.1, e.2)) :=
            List.mem_map.mpr ⟨e', he'f, rfl⟩
          rw [hx, List.map_cons] at he'm
          have hle := hmax _ he'm
          rw [← hee] at hle
          exact hle

/-- Witness for C9 at a concrete listing: the returned path is the joined
name of the audio file with the greatest modification time. -/
theorem C9_find_latest_correct_witness :
    ∃ name mt,
      (name, mt) ∈ [("a.txt", 9), ("b.MP3", 3), ("c.ogg", 7), ("d.wav", 7)] ∧
      isAudioFile name = true ∧
      "./downloads/c.ogg" = joinPath "./downloads" name ∧
      ∀ e ∈ [("a.txt", 9), ("b.MP3", 3), ("c.ogg", 7), ("d.wav", 7)],
        isAudioFile e.1 = true → e.2 ≤ mt :=
  (C9_find_latest_correct "./downloads"
      (some [("a.txt", 9), ("b.MP3", 3), ("c.ogg", 7), ("d.wav", 7)])).2
    "./downloads/c.ogg" (by decide)
